import Mathlib

/-!
Verification of the shopify-theme-server orchestration service.

This file shallowly embeds the retry-pull controller (`pullTheme` in
`src/services/shopify.service.ts`), the download-and-provision workflow
(`downloadTheme` and `fetchAndDownloadTheme`), the session registry inside
`CodexService` (`setupEnvironment`, `getEnvironment`, `listEnvironments`,
`removeEnvironment` in `src/services/codex.service.ts`), the non-streaming
chat handler (`handleChat` in `src/routes/chat.routes.ts`) and the streaming
event forwarder (`handleChatStreaming`).  External effects (the Shopify CLI,
the filesystem listing after a pull, the Codex SDK and webhook delivery) are
modelled by oracle parameters, and the effects performed by the code (CLI
invocations, inter-attempt sleeps, webhook POSTs) are recorded in explicit
traces.
-/

namespace ThemeServer

/-! ## Retry-pull controller (`ShopifyService.pullTheme`) -/

/-- Outcome of one `shopify theme pull` CLI invocation, as observed by
`pullTheme`: `execError = some msg` means `execAsync` rejected with that
error message; `filesAfter` is the number of entries `fs.readdir` would
report in the theme directory after the invocation. -/
structure AttemptOutcome where
  execError : Option String
  filesAfter : Nat
deriving Repr, DecidableEq

/-- The ways `pullTheme` can reject: the CLI invocation itself rejected
(the error propagates uncaught out of the loop), or every attempt left the
directory empty (`Failed to pull theme after ... attempts`). -/
inductive PullError where
  | execFailed : String → PullError
  | exhausted : Nat → PullError
deriving Repr, DecidableEq

deriving instance DecidableEq for Except

/-- Trace of one `pullTheme` run: how many CLI pull invocations were made,
the duration in seconds of each inter-attempt sleep in order, and the final
result (the local theme path on success). -/
structure PullRun where
  invocations : Nat
  delays : List Nat
  result : Except PullError String
deriving Repr, DecidableEq

/-- Model of `path.join(downloadBase, themeId)` for the paths this service
builds. -/
def pathJoin (a b : String) : String := a ++ "/" ++ b

/-- The body of the `for (let attempt = 0; attempt <= maxRetries; attempt++)`
loop of `pullTheme`.  `fuel` is `maxRetries + 1 - attempt`, so `fuel = 0`
exactly when `attempt > maxRetries` and the loop falls through to the
`Failed to pull theme` throw.  Before every attempt except the first the
code sleeps `retryDelaySeconds`; then it runs the CLI (an `execAsync`
rejection propagates out of the function uncaught); then it lists the
directory and returns the path if the listing is non-empty. -/
def pullLoop (outcome : Nat → AttemptOutcome) (themePath : String)
    (maxRetries retryDelaySeconds : Nat) :
    Nat → Nat → Nat → List Nat → PullRun
  | 0, _, invocations, delays =>
      { invocations := invocations, delays := delays
        result := .error (.exhausted (maxRetries + 1)) }
  | fuel + 1, attempt, invocations, delays =>
      let delays := if 0 < attempt then delays ++ [retryDelaySeconds] else delays
      let o := outcome attempt
      let invocations := invocations + 1
      match o.execError with
      | some msg =>
          { invocations := invocations, delays := delays
            result := .error (.execFailed msg) }
      | none =>
          if 0 < o.filesAfter then
            { invocations := invocations, delays := delays
              result := .ok themePath }
          else
            pullLoop outcome themePath maxRetries retryDelaySeconds
              fuel (attempt + 1) invocations delays

/-- The function `ShopifyService.pullTheme`: resolves the local theme path,
then runs the bounded retry loop starting at attempt 0. -/
def pullTheme (outcome : Nat → AttemptOutcome) (downloadBase themeId : String)
    (maxRetries retryDelaySeconds : Nat) : PullRun :=
  pullLoop outcome (pathJoin downloadBase themeId) maxRetries retryDelaySeconds
    (maxRetries + 1) 0 0 []

/-! ## Session registry (`CodexService.environmentThreads`) -/

/-- Characters the regex `[^a-zA-Z0-9]` of `setupEnvironment` leaves alone:
`true` exactly on ASCII letters and digits. -/
def isAlphanumeric (c : Char) : Bool :=
  ('a' ≤ c && c ≤ 'z') || ('A' ≤ c && c ≤ 'Z') || ('0' ≤ c && c ≤ '9')

/-- Character-list core of the environment-id derivation: every
non-alphanumeric character becomes the placeholder `'_'`. -/
def deriveEnvIdChars (cs : List Char) : List Char :=
  cs.map (fun c => if isAlphanumeric c then c else '_')

/-- The derivation `workingDirectory.replace(/[^a-zA-Z0-9]/g, '_')` from
`CodexService.setupEnvironment`. -/
def deriveEnvId (workingDirectory : String) : String :=
  ⟨deriveEnvIdChars workingDirectory.data⟩

/-- One entry of `environmentThreads` (the opaque thread handle and the
`createdAt` timestamp carry no information the claims touch and are
omitted). -/
structure EnvEntry where
  workingDirectory : String
  model : String
deriving Repr, DecidableEq

/-- The JS `Map` backing `environmentThreads`, as an insertion-ordered
association list. -/
abbrev Registry := List (String × EnvEntry)

/-- Semantics of `Map.prototype.set`: replace the entry in place when the
key is present, append otherwise. -/
def mapSet : Registry → String → EnvEntry → Registry
  | [], k, v => [(k, v)]
  | p :: t, k, v => if p.1 == k then (k, v) :: t else p :: mapSet t k v

/-- Semantics of `Map.prototype.get`. -/
def mapGet : Registry → String → Option EnvEntry
  | [], _ => none
  | p :: t, k => if p.1 == k then some p.2 else mapGet t k

/-- Semantics of `Map.prototype.delete`: report whether the key was present
and drop its entry. -/
def mapDelete (m : Registry) (k : String) : Bool × Registry :=
  (m.any (fun p => p.1 == k), m.filter (fun p => !(p.1 == k)))

/-- Default model literal in `setupEnvironment`. -/
def defaultCodexModel : String := "gpt-5.1-codex-max"

/-- JS `model || 'gpt-5.1-codex-max'`: `undefined` and the empty string are
falsy, so both fall back to the default. -/
def storedModel : Option String → String
  | none => defaultCodexModel
  | some m => if m = "" then defaultCodexModel else m

/-- The non-thread fields of the record `setupEnvironment` returns. -/
structure SetupResult where
  envId : String
  workingDirectory : String
  model : String
  yoloMode : Bool
deriving Repr, DecidableEq

/-- The function `CodexService.setupEnvironment`: starts a YOLO-mode thread,
derives the environment id from the working directory, and stores the entry
through `Map.set`, silently replacing any entry under a colliding id. -/
def setupEnvironment (reg : Registry) (workingDirectory : String)
    (model : Option String) : Registry × SetupResult :=
  let m := storedModel model
  let envId := deriveEnvId workingDirectory
  (mapSet reg envId ⟨workingDirectory, m⟩, ⟨envId, workingDirectory, m, true⟩)

/-- The function `CodexService.getEnvironment`. -/
def getEnvironment (reg : Registry) (envId : String) : Option EnvEntry :=
  mapGet reg envId

/-- The function `CodexService.listEnvironments`: reads the entries off the
map without writing to it. -/
def listEnvironments (reg : Registry) : List (String × EnvEntry) := reg

/-- The function `CodexService.removeEnvironment`: `Map.delete`, returning
whether an entry existed. -/
def removeEnvironment (reg : Registry) (envId : String) : Bool × Registry :=
  mapDelete reg envId

/-- One session-registry operation, for stating frame properties of call
sequences. -/
inductive RegOp where
  | setup (workingDirectory : String) (model : Option String)
  | get (envId : String)
  | list
  | remove (envId : String)

/-- Registry state after one operation: `setup` writes through `Map.set` and
`remove` through `Map.delete`; `getEnvironment` (`Map.get`) and
`listEnvironments` (`Array.from` over the entries) do not write. -/
def applyOp (reg : Registry) : RegOp → Registry
  | .setup wd m => (setupEnvironment reg wd m).1
  | .get _ => reg
  | .list => reg
  | .remove e => (removeEnvironment reg e).2

/-- Whether an operation is one of the two pure reads. -/
def isReadOp : RegOp → Bool
  | .get _ => true
  | .list => true
  | _ => false

/-! ## Download-and-provision workflow (`ShopifyService.downloadTheme` and
`fetchAndDownloadTheme` in `theme.routes.ts`) -/

/-- The `shopify theme duplicate` CLI output as `duplicateTheme` observes
it: both output channels empty after trimming; present output on which
`JSON.parse` throws (with that error's message); or parsed JSON whose
`theme.id` is present or absent. -/
inductive DupOutput where
  | empty
  | malformed (parseErrorMsg : String)
  | parsed (raw : String) (themeId : Option String)
deriving Repr, DecidableEq

/-- The function `ShopifyService.duplicateTheme`: rejects when the CLI
produced no output, when `JSON.parse` throws, or when the parsed output has
no `theme.id`; otherwise returns the new theme id. -/
def duplicateTheme : DupOutput → Except String String
  | .empty => .error "No output from theme duplicate command"
  | .malformed msg => .error msg
  | .parsed raw none => .error ("Theme duplication failed, theme output " ++ raw)
  | .parsed _ (some tid) => .ok tid

/-- Oracle inputs for one `downloadTheme` run: the duplicate CLI output, the
per-attempt pull outcomes, and whether `runThemeDev` resolves. -/
structure DownloadEnv where
  dupOutput : DupOutput
  pullOutcome : Nat → AttemptOutcome
  devResult : Except String Unit

/-- Trace of one `downloadTheme` run: how many pull CLI invocations, Codex
provisioning calls and theme-dev launches happened, and the final result
(`(newThemeId, envId)` on success, the propagated error's message
otherwise). -/
structure WorkflowTrace where
  pullInvocations : Nat
  provisionCalls : Nat
  devLaunches : Nat
  result : Except String (String × String)
deriving Repr, DecidableEq

/-- Message of the error a `pullTheme` run rejects with. -/
def pullErrorMessage : PullError → String
  | .execFailed msg => msg
  | .exhausted n =>
      "Failed to pull theme after " ++ toString n ++
        " attempts - directory remains empty"

/-- The function `ShopifyService.downloadTheme`: duplicate → fixed
propagation wait → retry-pull → provision the Codex environment (YOLO mode,
`config.CODEX_MODEL`) → launch theme dev.  A rejection at any step
propagates out and skips every later step.  Returns the updated registry and
the run's trace. -/
def downloadTheme (env : DownloadEnv) (reg : Registry) (downloadBase : String)
    (maxRetries retryDelaySeconds : Nat) (codexModel : String) :
    Registry × WorkflowTrace :=
  match duplicateTheme env.dupOutput with
  | .error e =>
      (reg, { pullInvocations := 0, provisionCalls := 0, devLaunches := 0
              result := .error e })
  | .ok newThemeId =>
      let pr := pullTheme env.pullOutcome downloadBase newThemeId
        maxRetries retryDelaySeconds
      match pr.result with
      | .error pe =>
          (reg, { pullInvocations := pr.invocations, provisionCalls := 0
                  devLaunches := 0, result := .error (pullErrorMessage pe) })
      | .ok themePath =>
          let setup := setupEnvironment reg themePath (some codexModel)
          match env.devResult with
          | .error de =>
              (setup.1, { pullInvocations := pr.invocations, provisionCalls := 1
                          devLaunches := 1, result := .error de })
          | .ok _ =>
              (setup.1, { pullInvocations := pr.invocations, provisionCalls := 1
                          devLaunches := 1
                          result := .ok (newThemeId, setup.2.envId) })

/-- A webhook POST attempted by the theme-download entry point, with its
payload (`{ success: true, theme_id, env_id }` or
`{ success: false, error }`). -/
inductive ThemePayload where
  | success (themeId envId : String)
  | failure (error : String)
deriving Repr, DecidableEq

/-- Observable outcome of one `fetchAndDownloadTheme` run: final registry,
the workflow trace, and the webhook POSTs attempted in order. -/
structure FetchRun where
  registry : Registry
  trace : WorkflowTrace
  webhooks : List ThemePayload

/-- The function `fetchAndDownloadTheme` in `theme.routes.ts`: on workflow
success it POSTs the success payload inside the `try` block, so when that
delivery itself rejects control falls into the `catch`, which attempts one
failure POST carrying the delivery error's message; on workflow rejection it
attempts one failure POST with the error's message; a rejection of a failure
POST is caught and only logged, so it adds no attempt and never escapes. -/
def fetchAndDownloadTheme (env : DownloadEnv) (successDelivery : Except String Unit)
    (reg : Registry) (downloadBase : String) (maxRetries retryDelaySeconds : Nat)
    (codexModel : String) : FetchRun :=
  let r := downloadTheme env reg downloadBase maxRetries retryDelaySeconds codexModel
  match r.2.result with
  | .ok (tid, envId) =>
      match successDelivery with
      | .ok _ => ⟨r.1, r.2, [.success tid envId]⟩
      | .error m => ⟨r.1, r.2, [.success tid envId, .failure m]⟩
  | .error e => ⟨r.1, r.2, [.failure e]⟩

/-! ## Non-streaming chat handler (`handleChat` in `chat.routes.ts`) -/

/-- A webhook POST attempted by `handleChat`, with its payload. -/
inductive ChatPayload where
  | success (envId response : String)
  | failure (envId error : String)
deriving Repr, DecidableEq

/-- The function `handleChat`: look the environment up (a missing one
throws `Environment not found`), run the prompt, POST the success payload
inside the `try`; any rejection — including one of the success POST itself —
falls into the `catch`, which attempts one failure POST and swallows that
POST's own rejection. -/
def handleChat (reg : Registry) (envId : String)
    (runResult : Except String String) (successDelivery : Except String Unit) :
    List ChatPayload :=
  match getEnvironment reg envId with
  | none => [.failure envId ("Environment not found: " ++ envId)]
  | some _ =>
      match runResult with
      | .error m => [.failure envId m]
      | .ok resp =>
          match successDelivery with
          | .ok _ => [.success envId resp]
          | .error m => [.success envId resp, .failure envId m]

/-! ## Streaming chat forwarder (`handleChatStreaming` in `chat.routes.ts`) -/

/-- The event types of the Codex SDK stream (the union `CodexEventType` in
`codex.service.ts`). -/
inductive EventType where
  | threadStarted
  | turnStarted
  | turnCompleted
  | turnFailed
  | itemStarted
  | itemUpdated
  | itemCompleted
  | error
deriving Repr, DecidableEq

/-- Whether `event.type.startsWith('item.')` holds for a type of the
union. -/
def isItemEvent : EventType → Bool
  | .itemStarted => true
  | .itemUpdated => true
  | .itemCompleted => true
  | _ => false

/-- One streamed event as the forwarder inspects it: its type tag and
`event.item?.type` when an item is attached. -/
structure StreamEvent where
  type : EventType
  itemType : Option String
deriving Repr, DecidableEq

/-- The predicate `isAgentMessageOrReasoning` of `handleChatStreaming`. -/
def isAgentMessageOrReasoning (e : StreamEvent) : Bool :=
  e.itemType == some "agent_message" || e.itemType == some "reasoning"

/-- The predicate `isAllowedNonItemEvent` of `handleChatStreaming`. -/
def isAllowedNonItemEvent (e : StreamEvent) : Bool :=
  e.type == .threadStarted || e.type == .turnCompleted

/-- Whether the event handler of `handleChatStreaming` forwards the event
(the early `return`s inverted): item-phase events pass when their item is an
agent message or reasoning, other events pass when allowed. -/
def forwards (e : StreamEvent) : Bool :=
  if isItemEvent e.type then isAgentMessageOrReasoning e
  else isAllowedNonItemEvent e

/-- The event loop of `handleChatStreaming` with the running `eventCount`:
each forwarded event increments the counter and is POSTed with it (a
delivery failure is caught per event and changes neither the counter nor the
loop). -/
def forwardLoop : List StreamEvent → Nat → List (Nat × StreamEvent)
  | [], _ => []
  | e :: rest, count =>
      if forwards e then (count + 1, e) :: forwardLoop rest (count + 1)
      else forwardLoop rest count

/-- The webhook POSTs `handleChatStreaming` attempts for a streamed run,
paired with their `event_number`. -/
def handleChatStreaming (events : List StreamEvent) : List (Nat × StreamEvent) :=
  forwardLoop events 0

end ThemeServer

namespace ThemeServer

/-- Loop invariant for the succeeding run: starting at attempt `a ≥ 1` with
`a + d = N`, all attempts before `N` empty and attempt `N` non-empty, the
loop performs `d + 1` further invocations, each preceded by a sleep. -/
lemma pullLoop_ok (outcome : Nat → AttemptOutcome) (tp : String) (N s : Nat)
    (hEmpty : ∀ i, i < N → outcome i = ⟨none, 0⟩)
    (hLast : (outcome N).execError = none) (hPos : 0 < (outcome N).filesAfter) :
    ∀ d a inv del, a + d = N → 1 ≤ a →
      pullLoop outcome tp N s (d + 1) a inv del =
        { invocations := inv + (d + 1), delays := del ++ List.replicate (d + 1) s
          result := .ok tp } := by
  intro d
  induction d with
  | zero =>
      intro a inv del ha h1
      have haN : a = N := by omega
      subst haN
      simp [pullLoop, Nat.lt_of_lt_of_le Nat.zero_lt_one h1, hLast, hPos]
  | succ k ih =>
      intro a inv del ha h1
      have haN : a < N := by omega
      have hout := hEmpty a haN
      rw [pullLoop]
      simp only [hout, show 0 < a from by omega, if_true, Nat.lt_irrefl, if_false]
      rw [ih (a + 1) (inv + 1) (del ++ [s]) (by omega) (by omega)]
      simp only [PullRun.mk.injEq, List.append_assoc, List.singleton_append,
        ← List.replicate_succ]
      refine ⟨by omega, ?_, ?_⟩ <;> trivial

/-- C1.  For `maxRetries = N`, if every attempt before `N` leaves the
directory empty and attempt `N` leaves it non-empty, `pullTheme` returns the
local theme path, after exactly `N + 1` CLI invocations and exactly `N`
inter-attempt sleeps, each of the configured `retryDelaySeconds`. -/
theorem pullTheme_eventual_success (N s : Nat) (outcome : Nat → AttemptOutcome)
    (db tid : String)
    (hEmpty : ∀ i, i < N → outcome i = ⟨none, 0⟩)
    (hLast : (outcome N).execError = none) (hPos : 0 < (outcome N).filesAfter) :
    pullTheme outcome db tid N s =
      { invocations := N + 1, delays := List.replicate N s
        result := .ok (pathJoin db tid) } := by
  unfold pullTheme
  cases N with
  | zero =>
      simp [pullLoop, hLast, hPos]
  | succ k =>
      have hout := hEmpty 0 (Nat.succ_pos k)
      rw [pullLoop]
      simp only [Nat.lt_irrefl, if_neg, hout, if_false]
      have := pullLoop_ok outcome (pathJoin db tid) (k + 1) s hEmpty hLast hPos
        k 1 1 [] (by omega) (by omega)
      simp only [hout] at this ⊢
      rw [this]
      simp only [List.nil_append, PullRun.mk.injEq]
      refine ⟨by omega, ?_, ?_⟩ <;> trivial

/-- Loop invariant for the exhausting run: starting at attempt `a ≥ 1` with
`a + d = N`, every attempt up to `N` empty, the loop performs the remaining
`d + 1` invocations and then throws `exhausted (N + 1)`. -/
lemma pullLoop_exhaust (outcome : Nat → AttemptOutcome) (tp : String) (N s : Nat)
    (hEmpty : ∀ i, i ≤ N → outcome i = ⟨none, 0⟩) :
    ∀ d a inv del, a + d = N → 1 ≤ a →
      pullLoop outcome tp N s (d + 1) a inv del =
        { invocations := inv + (d + 1), delays := del ++ List.replicate (d + 1) s
          result := .error (.exhausted (N + 1)) } := by
  intro d
  induction d with
  | zero =>
      intro a inv del ha h1
      have haN : a = N := by omega
      subst haN
      rw [pullLoop]
      simp [pullLoop, hEmpty a (Nat.le_refl a), show 0 < a from by omega]
  | succ k ih =>
      intro a inv del ha h1
      have hout := hEmpty a (by omega)
      rw [pullLoop]
      simp only [hout, show 0 < a from by omega, if_true, Nat.lt_irrefl, if_false]
      rw [ih (a + 1) (inv + 1) (del ++ [s]) (by omega) (by omega)]
      simp only [PullRun.mk.injEq, List.append_assoc, List.singleton_append,
        ← List.replicate_succ]
      refine ⟨by omega, ?_, ?_⟩ <;> trivial

/-- C2.  For `maxRetries = N`, if every attempt leaves the directory empty,
`pullTheme` rejects with the exhaustion error carrying `N + 1`, the number of
attempts made, after exactly `N + 1` CLI invocations — never `N + 2`. -/
theorem pullTheme_exhausted (N s : Nat) (outcome : Nat → AttemptOutcome)
    (db tid : String)
    (hEmpty : ∀ i, i ≤ N → outcome i = ⟨none, 0⟩) :
    pullTheme outcome db tid N s =
      { invocations := N + 1, delays := List.replicate N s
        result := .error (.exhausted (N + 1)) } := by
  unfold pullTheme
  cases N with
  | zero =>
      simp [pullLoop, hEmpty 0 (Nat.le_refl 0)]
  | succ k =>
      have hout := hEmpty 0 (Nat.zero_le _)
      rw [pullLoop]
      simp only [Nat.lt_irrefl, if_neg, hout, if_false]
      have := pullLoop_exhaust outcome (pathJoin db tid) (k + 1) s hEmpty
        k 1 1 [] (by omega) (by omega)
      simp only [hout] at this ⊢
      rw [this]
      simp only [List.nil_append, PullRun.mk.injEq]
      refine ⟨by omega, ?_, ?_⟩ <;> trivial

/-- Closed witness for C2 at `N = 3` (the repository's configured
`THEME_PULL_MAX_RETRIES`): four invocations, error carries 4. -/
theorem pullTheme_exhausted_witness :
    (∀ i, i ≤ 3 → (fun _ => (⟨none, 0⟩ : AttemptOutcome)) i = ⟨none, 0⟩) ∧
    pullTheme (fun _ => ⟨none, 0⟩) "themes" "123" 3 10 =
      { invocations := 4, delays := [10, 10, 10]
        result := .error (.exhausted 4) } :=
  ⟨by decide,
    pullTheme_exhausted 3 10 (fun _ => ⟨none, 0⟩) "themes" "123" (by decide)⟩

/-- C3 counterexample: with `maxRetries = 1`, an adapter invocation that
itself reports failure on (non-final) attempt 0 while the directory is
non-empty afterwards (5 files) makes `pullTheme` reject with the adapter's
error after a single invocation: the loop is aborted, the directory listing
is never consulted, and the run does not succeed with the local path. -/
theorem pullTheme_adapter_failure_counterexample :
    pullTheme (fun _ => ⟨some "exec failure", 5⟩) "themes" "123" 1 10 =
      { invocations := 1, delays := []
        result := .error (.execFailed "exec failure") } ∧
    (pullTheme (fun _ => ⟨some "exec failure", 5⟩) "themes" "123" 1 10).result ≠
      .ok (pathJoin "themes" "123") := by
  constructor
  · rfl
  · decide

/-- Loop invariant for the aborting run: if the loop reaches attempt `b ≥ 1`
and the first rejecting invocation is at attempt `a = b + d` (all earlier
attempts from `b` on resolve with an empty directory), the loop stops there
with the adapter's error. -/
lemma pullLoop_abort (outcome : Nat → AttemptOutcome) (tp : String)
    (N s a : Nat) (msg : String)
    (hEmpty : ∀ i, i < a → outcome i = ⟨none, 0⟩)
    (hFail : (outcome a).execError = some msg) :
    ∀ d b inv del f, b + d = a → 1 ≤ b → d < f →
      pullLoop outcome tp N s f b inv del =
        { invocations := inv + (d + 1), delays := del ++ List.replicate (d + 1) s
          result := .error (.execFailed msg) } := by
  intro d
  induction d with
  | zero =>
      intro b inv del f hb h1 hf
      have hba : b = a := by omega
      subst hba
      cases f with
      | zero => omega
      | succ f =>
          rw [pullLoop]
          simp [hFail, show 0 < b from by omega]
  | succ k ih =>
      intro b inv del f hb h1 hf
      have hout := hEmpty b (by omega)
      cases f with
      | zero => omega
      | succ f =>
          rw [pullLoop]
          simp only [hout, show 0 < b from by omega, if_true, Nat.lt_irrefl,
            if_false]
          rw [ih (b + 1) (inv + 1) (del ++ [s]) f (by omega) (by omega) (by omega)]
          simp only [PullRun.mk.injEq, List.append_assoc, List.singleton_append,
            ← List.replicate_succ]
          refine ⟨by omega, ?_, ?_⟩ <;> trivial

/-- C3 amended.  An adapter-reported failure is not a retried condition and
is not overridden by the directory state: if attempts before `a` resolve
with an empty directory and the invocation at attempt `a ≤ maxRetries`
rejects with `msg`, `pullTheme` rejects with exactly that adapter error
after exactly `a + 1` invocations and `a` sleeps, whatever `filesAfter`
reports for attempt `a`; only empty-directory-after-pull is retried. -/
theorem pullTheme_adapter_failure_aborts (N s a : Nat) (msg : String)
    (outcome : Nat → AttemptOutcome) (db tid : String)
    (ha : a ≤ N)
    (hEmpty : ∀ i, i < a → outcome i = ⟨none, 0⟩)
    (hFail : (outcome a).execError = some msg) :
    pullTheme outcome db tid N s =
      { invocations := a + 1, delays := List.replicate a s
        result := .error (.execFailed msg) } := by
  unfold pullTheme
  cases a with
  | zero =>
      rw [pullLoop]
      simp [hFail]
  | succ k =>
      have hout := hEmpty 0 (Nat.succ_pos k)
      rw [pullLoop]
      simp only [Nat.lt_irrefl, if_neg, hout, if_false]
      have := pullLoop_abort outcome (pathJoin db tid) N s (k + 1) msg hEmpty hFail
        k 1 1 [] N (by omega) (by omega) (by omega)
      simp only [hout] at this ⊢
      rw [this]
      simp only [List.nil_append, PullRun.mk.injEq]
      refine ⟨by omega, ?_, ?_⟩ <;> trivial

/-- Closed witness for the amended C3 at `maxRetries = 2`: attempt 0 empty,
attempt 1 rejects with a non-empty directory — two invocations, one sleep,
the adapter's error. -/
theorem pullTheme_adapter_failure_aborts_witness :
    (1 ≤ 2 ∧ (∀ i, i < 1 → (fun j => if j = 0 then (⟨none, 0⟩ : AttemptOutcome)
        else ⟨some "boom", 7⟩) i = ⟨none, 0⟩)) ∧
    pullTheme (fun j => if j = 0 then ⟨none, 0⟩ else ⟨some "boom", 7⟩)
        "themes" "123" 2 10 =
      { invocations := 2, delays := [10]
        result := .error (.execFailed "boom") } :=
  ⟨⟨by decide, by decide⟩,
    pullTheme_adapter_failure_aborts 2 10 1 "boom"
      (fun j => if j = 0 then ⟨none, 0⟩ else ⟨some "boom", 7⟩) "themes" "123"
      (by decide) (by decide) (by decide)⟩

/-- Closed witness for C1 at `N = 2`: two empty attempts then a directory
with 3 files. -/
theorem pullTheme_eventual_success_witness :
    (∀ i, i < 2 → (fun j => if j < 2 then (⟨none, 0⟩ : AttemptOutcome)
        else ⟨none, 3⟩) i = ⟨none, 0⟩) ∧
    pullTheme (fun j => if j < 2 then ⟨none, 0⟩ else ⟨none, 3⟩) "themes" "123" 2 10 =
      { invocations := 3, delays := [10, 10]
        result := .ok (pathJoin "themes" "123") } :=
  ⟨by decide,
    pullTheme_eventual_success 2 10
      (fun j => if j < 2 then ⟨none, 0⟩ else ⟨none, 3⟩) "themes" "123"
      (by decide) (by decide) (by decide)⟩

end ThemeServer

namespace ThemeServer

/-! ## Registry lemmas -/

/-- Setting a key then reading it back yields the new entry. -/
lemma mapGet_mapSet_self (m : Registry) (k : String) (v : EnvEntry) :
    mapGet (mapSet m k v) k = some v := by
  induction m with
  | nil => simp [mapSet, mapGet]
  | cons p t ih =>
      by_cases h : p.1 = k
      · simp [mapSet, mapGet, h]
      · simp [mapSet, mapGet, h, ih]

/-- Setting a key leaves every other key's entry unchanged. -/
lemma mapGet_mapSet_ne (m : Registry) (k k' : String) (v : EnvEntry)
    (h : k' ≠ k) :
    mapGet (mapSet m k v) k' = mapGet m k' := by
  induction m with
  | nil => simp [mapSet, mapGet, Ne.symm h]
  | cons p t ih =>
      by_cases hp : p.1 = k
      · simp [mapSet, mapGet, hp, Ne.symm h]
      · by_cases hp' : p.1 = k'
        · simp [mapSet, mapGet, hp, hp', h]
        · simp [mapSet, mapGet, hp, hp', ih]

/-- The `has`-style check of `Map.delete` agrees with `Map.get`. -/
lemma any_eq_isSome (m : Registry) (k : String) :
    m.any (fun p => p.1 == k) = (mapGet m k).isSome := by
  induction m with
  | nil => simp [mapGet]
  | cons p t ih =>
      by_cases h : p.1 = k
      · simp [mapGet, h]
      · simp [mapGet, h, ih]

/-- Deleting a key that `Map.get` cannot find leaves the list unchanged. -/
lemma filter_of_get_none (m : Registry) (k : String)
    (h : mapGet m k = none) :
    m.filter (fun p => !(p.1 == k)) = m := by
  induction m with
  | nil => rfl
  | cons p t ih =>
      by_cases hp : p.1 = k
      · simp [mapGet, hp] at h
      · have ht : mapGet t k = none := by simpa [mapGet, hp] using h
        have hcond : (!(p.1 == k)) = true := by simp [hp]
        rw [List.filter_cons, if_pos hcond, ih ht]

/-- After deleting a key, `Map.get` cannot find it. -/
lemma mapGet_filter_self (m : Registry) (k : String) :
    mapGet (m.filter (fun p => !(p.1 == k))) k = none := by
  induction m with
  | nil => rfl
  | cons p t ih =>
      by_cases hp : p.1 = k
      · simp [hp, ih]
      · simp [mapGet, hp, ih]

/-- C9.  `removeEnvironment` returns `true` exactly when an entry with that
`envId` existed; on an absent id it returns `false` with the registry
unchanged; on a present id it returns `true` and a subsequent
`getEnvironment` returns absent. -/
theorem removeEnvironment_spec (reg : Registry) (envId : String) :
    ((removeEnvironment reg envId).1 = true ↔ getEnvironment reg envId ≠ none)
    ∧ (getEnvironment reg envId = none →
        removeEnvironment reg envId = (false, reg))
    ∧ (getEnvironment reg envId ≠ none →
        (removeEnvironment reg envId).1 = true
        ∧ getEnvironment (removeEnvironment reg envId).2 envId = none) := by
  refine ⟨?_, ?_, ?_⟩
  · rw [show (removeEnvironment reg envId).1 =
        reg.any (fun p => p.1 == envId) from rfl, any_eq_isSome]
    cases h : mapGet reg envId <;> simp [getEnvironment, h]
  · intro h
    unfold removeEnvironment mapDelete
    rw [any_eq_isSome, filter_of_get_none reg envId h]
    simp [getEnvironment] at h
    simp [h]
  · intro h
    constructor
    · rw [show (removeEnvironment reg envId).1 =
          reg.any (fun p => p.1 == envId) from rfl, any_eq_isSome]
      simp only [getEnvironment] at h
      cases hg : mapGet reg envId
      · exact absurd hg h
      · rfl
    · exact mapGet_filter_self reg envId

/-- Closed witness for C9 on a one-entry registry: removing the present id
succeeds and empties it, removing an absent id is the identity. -/
theorem removeEnvironment_spec_witness :
    (getEnvironment [("a_b", ⟨"a/b", "m"⟩)] "a_b" ≠ none
      ∧ (removeEnvironment [("a_b", ⟨"a/b", "m"⟩)] "a_b").1 = true
      ∧ getEnvironment (removeEnvironment [("a_b", ⟨"a/b", "m"⟩)] "a_b").2 "a_b"
        = none)
    ∧ (getEnvironment [("a_b", ⟨"a/b", "m"⟩)] "zzz" = none
      ∧ removeEnvironment [("a_b", ⟨"a/b", "m"⟩)] "zzz"
        = (false, [("a_b", ⟨"a/b", "m"⟩)])) :=
  ⟨⟨by decide, (removeEnvironment_spec [("a_b", ⟨"a/b", "m"⟩)] "a_b").2.2
      (by decide)⟩,
   ⟨by decide, (removeEnvironment_spec [("a_b", ⟨"a/b", "m"⟩)] "zzz").2.1
      (by decide)⟩⟩

end ThemeServer

namespace ThemeServer

/-- Positionwise congruence for the id-derivation character map: characters
that agree map to the same image, and two non-alphanumeric characters both
map to the placeholder. -/
lemma deriveEnvIdChars_congr :
    ∀ (l₁ l₂ : List Char), l₁.length = l₂.length →
      (∀ i, i < l₁.length →
        (l₁.getD i '_' = l₂.getD i '_'
          ∨ (isAlphanumeric (l₁.getD i '_') = false
              ∧ isAlphanumeric (l₂.getD i '_') = false))) →
      deriveEnvIdChars l₁ = deriveEnvIdChars l₂ := by
  intro l₁
  induction l₁ with
  | nil =>
      intro l₂ hlen _
      cases l₂ with
      | nil => rfl
      | cons c₂ t₂ => simp at hlen
  | cons c t ih =>
      intro l₂ hlen hpos
      cases l₂ with
      | nil => simp at hlen
      | cons c₂ t₂ =>
          have h0 := hpos 0 (by simp)
          simp only [List.getD_cons_zero] at h0
          have hlen' : t.length = t₂.length := by simpa using hlen
          have htail : ∀ i, i < t.length →
              (t.getD i '_' = t₂.getD i '_'
                ∨ (isAlphanumeric (t.getD i '_') = false
                    ∧ isAlphanumeric (t₂.getD i '_') = false)) := by
            intro i hi
            have := hpos (i + 1) (by simp; omega)
            simpa only [List.getD_cons_succ] using this
          have htl := ih t₂ hlen' htail
          simp only [deriveEnvIdChars, List.map_cons] at htl ⊢
          rw [htl]
          rcases h0 with h | ⟨h₁, h₂⟩
          · rw [h]
          · simp [h₁, h₂]

/-- C6.  The id derivation is a pure function of the working directory
(identical inputs give identical ids); two directories of the same length
that differ only at non-alphanumeric positions derive the same id; and a
later `setupEnvironment` whose derived id collides silently overwrites the
earlier entry in the registry. -/
theorem envId_derivation_spec :
    (∀ w₁ w₂ : String, w₁ = w₂ → deriveEnvId w₁ = deriveEnvId w₂)
    ∧ (∀ w₁ w₂ : String, w₁.data.length = w₂.data.length →
        (∀ i, i < w₁.data.length →
          (w₁.data.getD i '_' = w₂.data.getD i '_'
            ∨ (isAlphanumeric (w₁.data.getD i '_') = false
                ∧ isAlphanumeric (w₂.data.getD i '_') = false))) →
        deriveEnvId w₁ = deriveEnvId w₂)
    ∧ (∀ (reg : Registry) (w₁ w₂ : String) (m₁ m₂ : Option String),
        deriveEnvId w₁ = deriveEnvId w₂ →
        getEnvironment
            (setupEnvironment (setupEnvironment reg w₁ m₁).1 w₂ m₂).1
            (deriveEnvId w₁)
          = some ⟨w₂, storedModel m₂⟩) := by
  refine ⟨fun w₁ w₂ h => by rw [h], ?_, ?_⟩
  · intro w₁ w₂ hlen hpos
    unfold deriveEnvId
    exact congrArg String.mk (deriveEnvIdChars_congr _ _ hlen hpos)
  · intro reg w₁ w₂ m₁ m₂ hcol
    simp only [setupEnvironment, getEnvironment]
    rw [hcol]
    exact mapGet_mapSet_self _ _ _

/-- Closed witness for C6: `/a/b` and `/a.b` differ only at the
non-alphanumeric position 2, collide to the same id, and the second
provisioning overwrites the first entry. -/
theorem envId_derivation_spec_witness :
    (("/a/b" : String).data.length = ("/a.b" : String).data.length
      ∧ deriveEnvId "/a/b" = deriveEnvId "/a.b")
    ∧ getEnvironment
        (setupEnvironment (setupEnvironment [] "/a/b" (some "m1")).1
          "/a.b" (some "m2")).1 (deriveEnvId "/a/b")
      = some ⟨"/a.b", storedModel (some "m2")⟩ :=
  ⟨⟨by decide, envId_derivation_spec.2.1 "/a/b" "/a.b" (by decide) (by decide)⟩,
   envId_derivation_spec.2.2 [] "/a/b" "/a.b" (some "m1") (some "m2")
     (envId_derivation_spec.2.1 "/a/b" "/a.b" (by decide) (by decide))⟩

/-- C8 counterexample: `setupEnvironment` called with the empty string as
`model` (a legitimate string argument, falsy in JS) stores and returns the
default model, so the entry read back does not carry the value that was
passed. -/
theorem setup_get_empty_model_counterexample :
    getEnvironment (setupEnvironment [] "/tmp/theme" (some "")).1
        (deriveEnvId "/tmp/theme")
      = some ⟨"/tmp/theme", "gpt-5.1-codex-max"⟩
    ∧ ("gpt-5.1-codex-max" : String) ≠ "" :=
  ⟨rfl, by decide⟩

/-- C8 amended.  For every starting registry and working directory,
`setupEnvironment` followed immediately by `getEnvironment` on the derived
id returns an entry whose `workingDirectory` field is exactly the passed
directory and whose `model` field is exactly the passed model whenever that
model is a non-empty string; an absent or empty model is stored as the
default `gpt-5.1-codex-max` instead. -/
theorem setup_then_get (reg : Registry) (w m : String) (hm : m ≠ "") :
    getEnvironment (setupEnvironment reg w (some m)).1 (deriveEnvId w)
      = some ⟨w, m⟩
    ∧ getEnvironment (setupEnvironment reg w (some "")).1 (deriveEnvId w)
      = some ⟨w, defaultCodexModel⟩
    ∧ getEnvironment (setupEnvironment reg w none).1 (deriveEnvId w)
      = some ⟨w, defaultCodexModel⟩ := by
  refine ⟨?_, ?_, ?_⟩ <;>
    simp [setupEnvironment, getEnvironment, storedModel, hm, mapGet_mapSet_self]

/-- Closed witness for the amended C8 with the non-empty model `gpt-4o`. -/
theorem setup_then_get_witness :
    ("gpt-4o" : String) ≠ "" ∧
    getEnvironment (setupEnvironment [] "/x/y" (some "gpt-4o")).1
        (deriveEnvId "/x/y") = some ⟨"/x/y", "gpt-4o"⟩ :=
  ⟨by decide, (setup_then_get [] "/x/y" "gpt-4o" (by decide)).1⟩

/-- C10.  `setupEnvironment` writes only the entry under its own derived
id — every other id reads the same before and after — and any sequence of
`getEnvironment` / `listEnvironments` calls leaves the registry exactly as
it was. -/
theorem registry_frame_spec :
    (∀ (reg : Registry) (w : String) (m : Option String) (k : String),
      k ≠ deriveEnvId w →
      getEnvironment (setupEnvironment reg w m).1 k = getEnvironment reg k)
    ∧ (∀ (reg : Registry) (ops : List RegOp),
        (∀ op ∈ ops, isReadOp op = true) →
        List.foldl applyOp reg ops = reg) := by
  constructor
  · intro reg w m k hk
    simp only [setupEnvironment, getEnvironment]
    exact mapGet_mapSet_ne reg (deriveEnvId w) k _ hk
  · intro reg ops
    induction ops generalizing reg with
    | nil => intro _; rfl
    | cons op rest ih =>
        intro h
        have hop := h op (List.mem_cons_self op rest)
        have hrest := fun o ho => h o (List.mem_cons_of_mem op ho)
        cases op with
        | get e => simpa [applyOp] using ih reg hrest
        | list => simpa [applyOp] using ih reg hrest
        | setup wd mo => simp [isReadOp] at hop
        | remove e => simp [isReadOp] at hop

/-- Closed witness for C10: provisioning `/a/b` does not disturb the entry
under the unrelated id `zzz`, and a get-then-list sequence is the
identity. -/
theorem registry_frame_spec_witness :
    (("zzz" : String) ≠ deriveEnvId "/a/b"
      ∧ getEnvironment (setupEnvironment [("zzz", ⟨"q", "m"⟩)] "/a/b" none).1 "zzz"
        = getEnvironment [("zzz", ⟨"q", "m"⟩)] "zzz")
    ∧ ((∀ op ∈ [RegOp.get "e", RegOp.list], isReadOp op = true)
      ∧ List.foldl applyOp [("zzz", ⟨"q", "m"⟩)] [RegOp.get "e", RegOp.list]
        = [("zzz", ⟨"q", "m"⟩)]) :=
  ⟨⟨by decide,
    registry_frame_spec.1 [("zzz", ⟨"q", "m"⟩)] "/a/b" none "zzz" (by decide)⟩,
   ⟨by decide,
    registry_frame_spec.2 [("zzz", ⟨"q", "m"⟩)] [RegOp.get "e", RegOp.list]
      (by decide)⟩⟩

end ThemeServer

namespace ThemeServer

/-- C4.  When the duplicate CLI output is the empty string, the workflow
aborts at step 1 with the duplication error: zero pull invocations, zero
provisioning calls, zero preview launches, registry untouched, and exactly
one webhook POST is attempted — the failure payload carrying the
duplication error's message. -/
theorem duplication_failure_short_circuits
    (po : Nat → AttemptOutcome) (dr : Except String Unit)
    (sd : Except String Unit) (reg : Registry)
    (db cm : String) (mr rd : Nat) :
    downloadTheme ⟨.empty, po, dr⟩ reg db mr rd cm =
      (reg, { pullInvocations := 0, provisionCalls := 0, devLaunches := 0
              result := .error "No output from theme duplicate command" })
    ∧ (fetchAndDownloadTheme ⟨.empty, po, dr⟩ sd reg db mr rd cm).webhooks
      = [.failure "No output from theme duplicate command"]
    ∧ (fetchAndDownloadTheme ⟨.empty, po, dr⟩ sd reg db mr rd cm).registry
      = reg :=
  ⟨rfl, rfl, rfl⟩

/-- C5 counterexample: a run whose workflow succeeds but whose success
webhook POST rejects attempts a second POST — the failure payload built
from the delivery error's message — so two webhook calls, a success and a
failure, are attempted for one logical operation, the second triggered by
the webhook delivery failure itself. -/
theorem webhook_single_attempt_counterexample :
    (fetchAndDownloadTheme
        ⟨.parsed "raw" (some "999"), fun _ => ⟨none, 3⟩, .ok ()⟩
        (.error "timeout of 10000ms exceeded")
        [] "themes" 3 10 "gpt-5").webhooks
      = [.success "999" (deriveEnvId (pathJoin "themes" "999")),
         .failure "timeout of 10000ms exceeded"]
    ∧ ((fetchAndDownloadTheme
        ⟨.parsed "raw" (some "999"), fun _ => ⟨none, 3⟩, .ok ()⟩
        (.error "timeout of 10000ms exceeded")
        [] "themes" 3 10 "gpt-5").webhooks).length ≠ 1 :=
  ⟨rfl, by decide⟩

/-- C5 amended.  Exactly one webhook POST is attempted per non-streaming
operation — the failure payload when the operation fails, the success
payload when it succeeds and that POST delivers — except that a rejected
success POST falls into the catch handler, which attempts exactly one
additional failure POST carrying the delivery error's message; a rejected
failure POST is only logged and adds no attempt, and nothing is surfaced to
the caller. -/
theorem webhook_attempt_policy :
    (∀ (env : DownloadEnv) (sd : Except String Unit) (reg : Registry)
        (db cm : String) (mr rd : Nat) (e : String),
      (downloadTheme env reg db mr rd cm).2.result = .error e →
      (fetchAndDownloadTheme env sd reg db mr rd cm).webhooks = [.failure e])
    ∧ (∀ (env : DownloadEnv) (reg : Registry) (db cm : String) (mr rd : Nat)
        (p : String × String),
      (downloadTheme env reg db mr rd cm).2.result = .ok p →
      (fetchAndDownloadTheme env (.ok ()) reg db mr rd cm).webhooks
        = [.success p.1 p.2])
    ∧ (∀ (env : DownloadEnv) (reg : Registry) (db cm : String) (mr rd : Nat)
        (p : String × String) (m : String),
      (downloadTheme env reg db mr rd cm).2.result = .ok p →
      (fetchAndDownloadTheme env (.error m) reg db mr rd cm).webhooks
        = [.success p.1 p.2, .failure m])
    ∧ (∀ (reg : Registry) (envId : String) (rr : Except String String)
        (sd : Except String Unit),
      getEnvironment reg envId = none →
      handleChat reg envId rr sd
        = [.failure envId ("Environment not found: " ++ envId)])
    ∧ (∀ (reg : Registry) (envId m : String) (sd : Except String Unit)
        (entry : EnvEntry),
      getEnvironment reg envId = some entry →
      handleChat reg envId (.error m) sd = [.failure envId m])
    ∧ (∀ (reg : Registry) (envId resp : String) (entry : EnvEntry),
      getEnvironment reg envId = some entry →
      handleChat reg envId (.ok resp) (.ok ()) = [.success envId resp])
    ∧ (∀ (reg : Registry) (envId resp m : String) (entry : EnvEntry),
      getEnvironment reg envId = some entry →
      handleChat reg envId (.ok resp) (.error m)
        = [.success envId resp, .failure envId m]) := by
  refine ⟨?_, ?_, ?_, ?_, ?_, ?_, ?_⟩
  · intro env sd reg db cm mr rd e h
    simp [fetchAndDownloadTheme, h]
  · intro env reg db cm mr rd p h
    obtain ⟨tid, eid⟩ := p
    simp [fetchAndDownloadTheme, h]
  · intro env reg db cm mr rd p m h
    obtain ⟨tid, eid⟩ := p
    simp [fetchAndDownloadTheme, h]
  · intro reg envId rr sd h
    simp [handleChat, h]
  · intro reg envId m sd entry h
    simp [handleChat, h]
  · intro reg envId resp entry h
    simp [handleChat, h]
  · intro reg envId resp m entry h
    simp [handleChat, h]

/-- Closed witness for the amended C5: a successful workflow whose success
POST rejects with `boom` attempts exactly the success payload followed by
one failure payload. -/
theorem webhook_attempt_policy_witness :
    (downloadTheme ⟨.parsed "raw" (some "999"), fun _ => ⟨none, 3⟩, .ok ()⟩
        [] "themes" 3 10 "gpt-5").2.result
      = .ok ("999", "themes_999")
    ∧ (fetchAndDownloadTheme
        ⟨.parsed "raw" (some "999"), fun _ => ⟨none, 3⟩, .ok ()⟩
        (.error "boom") [] "themes" 3 10 "gpt-5").webhooks
      = [.success "999" "themes_999", .failure "boom"] :=
  ⟨rfl,
   webhook_attempt_policy.2.2.1
     ⟨.parsed "raw" (some "999"), fun _ => ⟨none, 3⟩, .ok ()⟩
     [] "themes" "gpt-5" 3 10 ("999", "themes_999") "boom" rfl⟩

/-- C7 counterexample: an `item.started` event whose item is an agent
message is forwarded — one POST with `event_number` 1 — although it is
neither an `item.completed` nor a `thread.started` ("session-started") nor a
`turn.completed` event, so the filter does not suppress all non-item-completed
item events. -/
theorem streaming_filter_counterexample :
    handleChatStreaming [⟨.itemStarted, some "agent_message"⟩]
      = [(1, ⟨.itemStarted, some "agent_message"⟩)]
    ∧ (EventType.itemStarted ≠ .itemCompleted
      ∧ EventType.itemStarted ≠ .threadStarted
      ∧ EventType.itemStarted ≠ .turnCompleted) :=
  ⟨rfl, by decide, by decide, by decide⟩

/-- The POSTs forwarded after the counter has reached `c` carry the numbers
`c + 1, c + 2, ...`, one per event that passes the filter. -/
lemma forwardLoop_map_fst (events : List StreamEvent) :
    ∀ c, (forwardLoop events c).map Prod.fst
      = List.range' (c + 1) (events.filter forwards).length := by
  induction events with
  | nil => intro c; rfl
  | cons e rest ih =>
      intro c
      by_cases h : forwards e
      · simp [forwardLoop, h, List.filter_cons, ih (c + 1), List.range'_succ]
      · simp [forwardLoop, h, List.filter_cons, ih c]

/-- C7 amended.  The forwarder relays every item-phase event
(`item.started`, `item.updated`, `item.completed`) whose item is tagged as
an agent message or a reasoning trace, plus `thread.started`
("session-started") and `turn.completed` events, suppressing all others;
the attempted POSTs carry the strictly increasing numbers `1, 2, 3, ...`,
and on the scenario sequence exactly three POSTs are attempted —
`thread.started`, the agent-message item and `turn.completed` — numbered 1,
2, 3. -/
theorem streaming_forwarder_spec :
    (∀ e : StreamEvent, forwards e = true ↔
      ((isItemEvent e.type = true
          ∧ (e.itemType = some "agent_message" ∨ e.itemType = some "reasoning"))
        ∨ (isItemEvent e.type = false
          ∧ (e.type = .threadStarted ∨ e.type = .turnCompleted))))
    ∧ (∀ events : List StreamEvent,
        (handleChatStreaming events).map Prod.fst
          = List.range' 1 ((events.filter forwards).length))
    ∧ handleChatStreaming
        [⟨.threadStarted, none⟩, ⟨.turnStarted, none⟩,
         ⟨.itemCompleted, some "agent_message"⟩,
         ⟨.itemCompleted, some "tool_call"⟩,
         ⟨.turnCompleted, none⟩]
      = [(1, ⟨.threadStarted, none⟩),
         (2, ⟨.itemCompleted, some "agent_message"⟩),
         (3, ⟨.turnCompleted, none⟩)] := by
  refine ⟨?_, ?_, rfl⟩
  · intro e
    unfold forwards isAgentMessageOrReasoning isAllowedNonItemEvent
    by_cases h : isItemEvent e.type <;> simp [h]
  · intro events
    exact forwardLoop_map_fst events 0

end ThemeServer
